import Mathlib

/-
Verification of the benchmark-openbao specification against the repository
sources. The embedding covers:

  * the per-endpoint benchmark tests (KVV1Test, KVV2Test, ACLPolicyTest,
    MountTest, NamespaceTest, RedisDynamicSecret) from
    src/benchmarktests/*.go and src/unnamed/part_003: ParseConfig, Setup,
    Target, GetTargetInfo, and the process-wide TestList registry populated
    by their init functions;
  * the Weighted Target Sampler and the Lifecycle Controller, whose code is
    not among the repository files provided; those are modelled from the
    spec (each such definition says so in its doc comment).

Server interaction is embedded effectfully: a computation returns, besides
its value, the list of server operations it performed, and can instead end
in a Go error return, a log.Fatalf process exit, or a runtime panic.
-/

namespace Bench

/-! ### Effect model: Go results, panics, log.Fatalf, and server operations -/

/-- Result of a Go computation: a normal value, an error return value,
a `log.Fatalf` process exit, or a runtime panic. -/
inductive Res (α : Type) where
  | ok (val : α)
  | err (msg : String)
  | fatal (msg : String)
  | panicked (msg : String)
deriving DecidableEq, Repr

def Res.bind {α β : Type} : Res α → (α → Res β) → Res β
  | .ok a, f => f a
  | .err m, _ => .err m
  | .fatal m, _ => .fatal m
  | .panicked m, _ => .panicked m

instance : Monad Res where
  pure := Res.ok
  bind := Res.bind

theorem Res.pure_def {α : Type} (a : α) : (pure a : Res α) = Res.ok a := rfl

theorem Res.bind_eq_ok {α β : Type} {x : Res α} {f : α → Res β} {b : β}
    (h : Res.bind x f = .ok b) : ∃ a, x = .ok a ∧ f a = .ok b := by
  cases x with
  | ok a => exact ⟨a, rfl, h⟩
  | err m => exact Res.noConfusion h
  | fatal m => exact Res.noConfusion h
  | panicked m => exact Res.noConfusion h

/-- One HTTP round-trip to the server performed by Setup code through the
api client: mounting an engine, or a logical write / read. -/
inductive ServerOp where
  | mountOp (path : String) (engineType : String) (options : List (String × String))
  | writeOp (path : String)
  | readOp (path : String)
deriving DecidableEq, Repr

/-- The server state, abstracted as the history of operations applied to it. -/
def ServerState := List ServerOp

/-- Applying a batch of operations to the server appends them to its history. -/
def applyOps (s : ServerState) (ops : List ServerOp) : ServerState :=
  List.append s ops

/-! ### Weighted Target Sampler (modelled from the spec) -/

/-- Modelled from the spec: the sampler code is not among the repository
files provided. "build a cumulative-weight array (ascending prefix sums of
weights)" — the head entry is the first weight, and each later entry adds
the corresponding weight to the previous prefix sum. -/
def cumulativeWeights : List Int → List Int
  | [] => []
  | w :: ws => w :: (cumulativeWeights ws).map (fun c => w + c)

/-- Modelled from the spec: "binary-searches the cumulative array to find
the owning instance"; on the ascending cumulative array this returns the
first index whose cumulative weight strictly exceeds the drawn value. -/
def sampleIndex (cum : List Int) (r : Int) : Nat :=
  cum.findIdx (fun c => decide (r < c))

/-- Modelled from the spec: the WeightTable derived from the bound
instances, holding the weights and the cumulative-weight array. -/
structure WeightTable where
  weights : List Int
  cum : List Int
deriving DecidableEq, Repr

/-- Modelled from the spec: "The table must reject construction if any
weight is zero or negative, or if the instance list is empty." -/
def buildWeightTable (ws : List Int) : Except String WeightTable :=
  if ws.isEmpty then .error "empty instance list"
  else if ws.any (fun w => decide (w ≤ 0)) then .error "non-positive weight"
  else .ok { weights := ws, cum := cumulativeWeights ws }

/-- Modelled from the spec: each `next()` call draws a uniform value in
`[0, totalWeight)` and searches the cumulative array for the owning index. -/
def WeightTable.next (t : WeightTable) (r : Int) : Nat :=
  sampleIndex t.cum r

theorem buildWeightTable_ok_iff (ws : List Int) :
    (∃ t, buildWeightTable ws = .ok t) ↔ ws ≠ [] ∧ ∀ w ∈ ws, 0 < w := by
  unfold buildWeightTable
  by_cases h1 : ws.isEmpty
  · simp only [h1, if_true]
    constructor
    · rintro ⟨t, ht⟩; cases ht
    · rintro ⟨hne, _⟩
      exact absurd (List.isEmpty_iff.mp h1) hne
  · simp only [h1, if_false]
    by_cases h2 : ws.any (fun w => decide (w ≤ 0))
    · simp only [h2, if_true]
      constructor
      · rintro ⟨t, ht⟩; cases ht
      · rintro ⟨_, hpos⟩
        rcases List.any_eq_true.mp h2 with ⟨w, hw, hle⟩
        exact absurd (hpos w hw) (by simpa using of_decide_eq_true hle)
    · simp only [h2, if_false]
      refine ⟨fun _ => ⟨fun he => h1 (by simp [he]), fun w hw => ?_⟩, fun _ => ⟨_, rfl⟩⟩
      by_contra hle
      exact h2 (List.any_eq_true.mpr ⟨w, hw, decide_eq_true (by omega)⟩)

/-- C2: construction of the weighted target sampler (the cumulative-weight
table) fails deterministically exactly when the instance list is empty or
some weight is zero or negative; on such input it never succeeds, and the
function is deterministic, so the failure is deterministic. -/
theorem buildWeightTable_error_iff (ws : List Int) :
    (∃ e, buildWeightTable ws = .error e) ↔ ws = [] ∨ ∃ w ∈ ws, w ≤ 0 := by
  unfold buildWeightTable
  by_cases h1 : ws.isEmpty
  · simp only [h1, if_true]
    exact ⟨fun _ => Or.inl (List.isEmpty_iff.mp h1), fun _ => ⟨_, rfl⟩⟩
  · simp only [h1, if_false]
    by_cases h2 : ws.any (fun w => decide (w ≤ 0))
    · simp only [h2, if_true]
      refine ⟨fun _ => Or.inr ?_, fun _ => ⟨_, rfl⟩⟩
      rcases List.any_eq_true.mp h2 with ⟨w, hw, hle⟩
      exact ⟨w, hw, of_decide_eq_true hle⟩
    · simp only [h2, if_false]
      constructor
      · rintro ⟨e, he⟩; cases he
      · rintro (he | ⟨w, hw, hle⟩)
        · exact absurd (by simp [he]) h1
        · exact absurd (List.any_eq_true.mpr ⟨w, hw, decide_eq_true hle⟩) h2

/-! Counting lemmas for the sampler distribution (claim C1). -/

theorem findIdx_map_add (w r : Int) (l : List Int) :
    (l.map (fun c => w + c)).findIdx (fun c => decide (r < c))
      = l.findIdx (fun c => decide (r - w < c)) := by
  induction l with
  | nil => rfl
  | cons a l ih =>
    simp only [List.map_cons, List.findIdx_cons, ih]
    by_cases hc : r - w < a
    · simp [hc, show r < w + a by omega]
    · simp [hc, show ¬r < w + a by omega]

theorem sampleIndex_cons (w : Int) (ws : List Int) (r : Int) :
    sampleIndex (cumulativeWeights (w :: ws)) r
      = if r < w then 0 else sampleIndex (cumulativeWeights ws) (r - w) + 1 := by
  show (w :: (cumulativeWeights ws).map (fun c => w + c)).findIdx
      (fun c => decide (r < c)) = _
  rw [List.findIdx_cons]
  by_cases hc : r < w
  · rw [decide_eq_true hc, cond_true, if_pos hc]
  · rw [decide_eq_false hc, cond_false, if_neg hc, findIdx_map_add]
    rfl

theorem card_filter_shift (a b : Nat) (p : Nat → Prop) [DecidablePred p] :
    ((Finset.range (a + b)).filter (fun r => a ≤ r ∧ p (r - a))).card
      = ((Finset.range b).filter (fun r => p r)).card := by
  have himg : (Finset.range (a + b)).filter (fun r => a ≤ r ∧ p (r - a))
      = ((Finset.range b).filter (fun r => p r)).image (fun r => r + a) := by
    ext x
    simp only [Finset.mem_filter, Finset.mem_range, Finset.mem_image]
    constructor
    · rintro ⟨hx, hax, hp⟩
      exact ⟨x - a, ⟨by omega, hp⟩, by omega⟩
    · rintro ⟨y, ⟨hy, hp⟩, rfl⟩
      exact ⟨by omega, by omega, by simpa using hp⟩
  rw [himg, Finset.card_image_of_injective _ (add_left_injective a)]

theorem count_sampleIndex (ws : List Int) (hpos : ∀ w ∈ ws, 0 < w) (i : Nat)
    (hi : i < ws.length) :
    ((Finset.range ws.sum.toNat).filter
        (fun (r : Nat) => sampleIndex (cumulativeWeights ws) (r : Int) = i)).card
      = (ws.getD i 0).toNat := by
  induction ws generalizing i with
  | nil => exact absurd hi (by simp)
  | cons w ws ih =>
    have hw : 0 < w := hpos w (by simp)
    have hws : ∀ x ∈ ws, 0 < x := fun x hx => hpos x (by simp [hx])
    have hsum : 0 ≤ ws.sum := List.sum_nonneg (fun x hx => le_of_lt (hws x hx))
    have htot : (w + ws.sum).toNat = w.toNat + ws.sum.toNat := by omega
    have hcum : ∀ r : Nat, sampleIndex (cumulativeWeights (w :: ws)) (r : Int)
        = if (r : Int) < w then 0 else sampleIndex (cumulativeWeights ws) ((r : Int) - w) + 1 :=
      fun r => sampleIndex_cons w ws r
    simp only [List.sum_cons, htot]
    match i with
    | 0 =>
      have hset : (Finset.range (w.toNat + ws.sum.toNat)).filter
          (fun (r : Nat) => sampleIndex (cumulativeWeights (w :: ws)) (r : Int) = 0)
          = Finset.range w.toNat := by
        ext x
        simp only [Finset.mem_filter, Finset.mem_range, hcum x]
        by_cases hx : (x : Int) < w
        · rw [if_pos hx]
          constructor
          · rintro ⟨-, -⟩; omega
          · intro h; exact ⟨by omega, rfl⟩
        · rw [if_neg hx]
          constructor
          · rintro ⟨-, h0⟩; omega
          · intro h; exact absurd (show (x : Int) < w by omega) hx
      rw [hset, Finset.card_range]
      rfl
    | j + 1 =>
      have hj : j < ws.length := by simpa using hi
      have hset : (Finset.range (w.toNat + ws.sum.toNat)).filter
          (fun (r : Nat) => sampleIndex (cumulativeWeights (w :: ws)) (r : Int) = j + 1)
          = (Finset.range (w.toNat + ws.sum.toNat)).filter
              (fun (r : Nat) => w.toNat ≤ r ∧
                sampleIndex (cumulativeWeights ws) ((r - w.toNat : Nat) : Int) = j) := by
        ext x
        simp only [Finset.mem_filter, Finset.mem_range, hcum x]
        by_cases hx : (x : Int) < w
        · rw [if_pos hx]
          constructor
          · rintro ⟨-, h0⟩; exact absurd h0 (by omega)
          · rintro ⟨-, hle, -⟩; exact absurd hx (by omega)
        · have hle : w.toNat ≤ x := by omega
          have hcast : ((x : Int) - w) = ((x - w.toNat : Nat) : Int) := by omega
          rw [if_neg hx, hcast]
          constructor
          · rintro ⟨hx1, hx2⟩
            exact ⟨hx1, hle, by omega⟩
          · rintro ⟨hx1, -, hx3⟩
            exact ⟨hx1, by omega⟩
      rw [hset, card_filter_shift w.toNat ws.sum.toNat
        (fun (r : Nat) => sampleIndex (cumulativeWeights ws) (r : Int) = j)]
      simpa using ih hws j hj

/-- C1: for a weight table built from weights `ws`, a uniform draw in
`[0, totalWeight)` selects index `i` for exactly `ws[i]` of the
`totalWeight` possible draw values, so each `next()` call selects instance
`i` with probability `weight(i) / sum(weights)`; draws of distinct calls
are independent because `next` is a pure function of the per-call draw, and
the selection count depends only on the weight value, never on declaration
order, so ties in weight are broken purely by the random draw. -/
theorem weightTable_next_counts (ws : List Int) (t : WeightTable) (i : Nat)
    (hok : buildWeightTable ws = .ok t) (hi : i < ws.length) :
    ((Finset.range ws.sum.toNat).filter (fun (r : Nat) => t.next (r : Int) = i)).card
      = (ws.getD i 0).toNat := by
  have hne : ¬ws.isEmpty := by
    intro h
    rw [buildWeightTable, if_pos h] at hok
    cases hok
  have hany : ¬ws.any (fun w => decide (w ≤ 0)) := by
    intro h
    rw [buildWeightTable, if_neg hne, if_pos h] at hok
    cases hok
  have hpos : ∀ w ∈ ws, 0 < w := by
    intro w hw
    by_contra hle
    exact hany (List.any_eq_true.mpr ⟨w, hw, decide_eq_true (by omega)⟩)
  have hcum : t.cum = cumulativeWeights ws := by
    rw [buildWeightTable, if_neg hne, if_neg hany] at hok
    cases hok
    rfl
  simp only [WeightTable.next, hcum]
  exact count_sampleIndex ws hpos i hi

/-- Witness for C1: weights `[1, 3]`; the table is built, and index 1 owns
exactly 3 of the 4 possible draws. -/
theorem weightTable_next_counts_witness :
    ((Finset.range ([(1 : Int), 3].sum.toNat)).filter
        (fun (r : Nat) =>
          (WeightTable.mk [1, 3] (cumulativeWeights [1, 3])).next (r : Int) = 1)).card
      = (([(1 : Int), 3].getD 1 0)).toNat :=
  weightTable_next_counts [1, 3] (WeightTable.mk [1, 3] (cumulativeWeights [1, 3])) 1
    (by rfl) (by decide)

/-! ### Lifecycle Controller (modelled from the spec) -/

/-- Modelled from the spec: the Lifecycle Controller code is not among the
repository files provided. It drives each test definition through Setup in
order, one definition at a time; on the first Setup failure it aborts the
remaining Setup calls. The argument lists each definition setup outcome
(`true` = Setup succeeded); the result is the list of indices provisioned,
in order, and whether every Setup succeeded. -/
def runSetups : List Bool → List Nat × Bool
  | [] => ([], true)
  | b :: rest =>
    if b then
      let (prov, allOk) := runSetups rest
      (0 :: prov.map (fun i => i + 1), allOk)
    else ([], false)

/-- Modelled from the spec: the controller then runs Cleanup once for every
instance already provisioned, whether a later Setup failed or the run
completed; no other instance is cleaned up. -/
def controllerCleanups (outcomes : List Bool) : List Nat :=
  (runSetups outcomes).1

theorem runSetups_failure_range (outcomes : List Bool) (k : Nat)
    (hk : k < outcomes.length) (hfail : outcomes.getD k true = false)
    (hbefore : ∀ j, j < k → outcomes.getD j false = true) :
    (runSetups outcomes).1 = List.range k := by
  induction outcomes generalizing k with
  | nil => exact absurd hk (by simp)
  | cons b rest ih =>
    match k with
    | 0 =>
      have hb : b = false := hfail
      simp [runSetups, hb]
    | k + 1 =>
      have hb : b = true := hbefore 0 (by omega)
      have hrest : (runSetups rest).1 = List.range k :=
        ih k (by simpa using hk) hfail (fun j hj => hbefore (j + 1) (by omega))
      simp only [runSetups, hb, if_true, hrest]
      rw [List.range_succ_eq_map]

/-- C3: in a lifecycle-controller run over `n` test definitions in which
Setup of definition `k` fails and all earlier Setups succeed, Cleanup is
invoked exactly once for each definition before `k` and never for
definition `k` or any later one (indices are zero-based here). -/
theorem lifecycle_cleanup_exactly_provisioned (outcomes : List Bool) (k : Nat)
    (hk : k < outcomes.length) (hfail : outcomes.getD k true = false)
    (hbefore : ∀ j, j < k → outcomes.getD j false = true) :
    ∀ j, (controllerCleanups outcomes).count j = if j < k then 1 else 0 := by
  intro j
  unfold controllerCleanups
  rw [runSetups_failure_range outcomes k hk hfail hbefore]
  by_cases hj : j < k
  · rw [if_pos hj]
    exact List.count_eq_one_of_mem (List.nodup_range k) (List.mem_range.mpr hj)
  · rw [if_neg hj]
    exact List.count_eq_zero_of_not_mem (fun hm => hj (List.mem_range.mp hm))

/-- Witness for C3: three definitions, the third Setup fails; definition 1
is cleaned up exactly once. -/
theorem lifecycle_cleanup_exactly_provisioned_witness :
    (controllerCleanups [true, true, false]).count 1 = if 1 < 2 then 1 else 0 :=
  lifecycle_cleanup_exactly_provisioned [true, true, false] 2 (by decide) (by decide)
    (fun j hj =>
      match j, hj with
      | 0, _ => rfl
      | 1, _ => rfl
      | n + 2, hj => absurd hj (by omega)) 1

/-! ### Clients, headers, request templates and Go library helpers -/

/-- The auth headers every test sends: X-Vault-Token and X-Vault-Namespace. -/
structure Header where
  token : String
  nsToken : String
deriving DecidableEq, Repr

/-- The api client handed to each test: its address, token and the
X-Vault-Namespace header value. -/
structure Client where
  addr : String
  token : String
  nsToken : String
deriving DecidableEq, Repr

/-- Embeds client.Address(). -/
def Client.address (c : Client) : String := c.addr

/-- Modelled from the spec: the generateHeader helper used by
RedisDynamicSecret.Setup is defined outside the provided files; every
in-src test builds the same pair of headers inline from the client token
and namespace header, and this does likewise. -/
def generateHeader (c : Client) : Header :=
  { token := c.token, nsToken := c.nsToken }

/-- Embeds the global options handed to Setup (only RandomMounts is read by
the tests). -/
structure TopLevelTargetConfig where
  randomMounts : Bool
deriving DecidableEq, Repr

/-- Embeds the TargetInfo struct returned by GetTargetInfo. -/
structure TargetInfo where
  method : String
  pathPrefix : String
deriving DecidableEq, Repr

/-- Embeds a vegeta.Target request template: method, URL, body, headers. -/
structure VegetaTarget where
  method : String
  url : String
  body : String
  header : Header
deriving DecidableEq, Repr

/-- Per-call randomness available to Target and Setup: the raw generator
draw consumed by rand.Int31n, and the result of uuid.GenerateUUID (none
models a generation failure). -/
structure RandSrc where
  draw : Int
  uuid : Option String
deriving DecidableEq, Repr

/-- Embeds Go rand.Int31n: panics for a non-positive bound, else returns
the generator draw reduced into `[0, n)`. -/
def randInt31n (n : Int) (draw : Int) : Res Int :=
  if n ≤ 0 then .panicked "invalid argument to Int31n"
  else .ok (draw.emod n)

/-- Embeds the Go conversion int32(x): two's-complement wraparound into
`[-2^31, 2^31)`. -/
def toInt32 (x : Int) : Int :=
  (x + 2 ^ 31) % 2 ^ 32 - 2 ^ 31

/-- Embeds Go strings.Repeat: panics for a negative count. -/
def stringsRepeat (s : String) (n : Int) : Res String :=
  if n < 0 then .panicked "strings: negative Repeat count"
  else .ok (String.join (List.replicate n.toNat s))

/-- The resource-path selection snippet every Setup repeats verbatim: keep
the human-provided name, or replace it with a fresh uuid.GenerateUUID
result when RandomMounts is set — and when that generation fails, exit the
whole process through log.Fatalf. -/
def selectMountPath (topLevelConfig : TopLevelTargetConfig) (mountName : String)
    (uuidGen : Option String) : Res String :=
  if topLevelConfig.randomMounts then
    match uuidGen with
    | some u => .ok u
    | none => .fatal "can't create UUID"
  else .ok mountName

theorem selectMountPath_some (rm : Bool) (name uuid : String) :
    selectMountPath { randomMounts := rm } name (some uuid)
      = .ok (if rm then uuid else name) := by
  cases rm <;> rfl

theorem selectMountPath_fatal (tlc : TopLevelTargetConfig)
    (h : tlc.randomMounts = true) (name : String) :
    selectMountPath tlc name none = .fatal "can't create UUID" := by
  simp [selectMountPath, h]

/-! ### KVV1Test (src/benchmarktests/target_secret_kvv1.go) -/

def KVV1ReadTestType : String := "kvv1_read"
def KVV1ListTestType : String := "kvv1_list"
def KVV1WriteTestType : String := "kvv1_write"
def KVV1ReadTestMethod : String := "GET"
def KVV1ListTestMethod : String := "LIST"
def KVV1WriteTestMethod : String := "POST"

structure KVV1SecretTestConfig where
  kvSize : Int
  numKVs : Int
deriving DecidableEq, Repr

structure KVV1Test where
  pathPrefix : String
  header : Header
  config : Option KVV1SecretTestConfig
  action : String
  numKVs : Int
  kvSize : Int
deriving DecidableEq, Repr

/-- Embeds the hcl.Body handed to KVV1Test.ParseConfig: either input gohcl
fails to decode, or a decoded body whose optional config block carries
optional kvsize/numkvs overrides. -/
inductive KVV1RawBody where
  | malformed
  | decoded (config : Option (Option Int × Option Int))
deriving DecidableEq, Repr

/-- Embeds KVV1Test.ParseConfig: defaults KVSize 1 and NumKVs 1000, fields
present in the config block override them, and a decode failure is the
only error. Returned functionally rather than stored on the receiver. -/
def KVV1Test.ParseConfig (body : KVV1RawBody) : Res KVV1SecretTestConfig :=
  match body with
  | .malformed => .err "error decoding to struct"
  | .decoded cfg =>
    let c := cfg.getD (none, none)
    .ok { kvSize := c.1.getD 1, numKVs := c.2.getD 1000 }

/-- Embeds KVV1Test.read. -/
def KVV1Test.read (k : KVV1Test) (client : Client) (rng : RandSrc) :
    Res (VegetaTarget × List ServerOp) := do
  let v ← randInt31n (toInt32 k.numKVs) rng.draw
  pure ({ method := KVV1ReadTestMethod
          url := client.address ++ k.pathPrefix ++ "/secret-" ++ toString (1 + v)
          body := ""
          header := k.header }, [])

/-- Embeds KVV1Test.list. -/
def KVV1Test.list (k : KVV1Test) (client : Client) :
    Res (VegetaTarget × List ServerOp) :=
  .ok ({ method := KVV1ListTestMethod
         url := client.address ++ k.pathPrefix
         body := ""
         header := k.header }, [])

/-- Embeds KVV1Test.write. -/
def KVV1Test.write (k : KVV1Test) (client : Client) (rng : RandSrc) :
    Res (VegetaTarget × List ServerOp) := do
  let v ← randInt31n (toInt32 k.numKVs) rng.draw
  let value ← stringsRepeat "a" k.kvSize
  pure ({ method := KVV1WriteTestMethod
          url := client.address ++ k.pathPrefix ++ "/secret-" ++ toString (1 + v)
          body := "\x7b\"data\": \x7b\"foo\": \"" ++ value ++ "\"\x7d\x7d"
          header := k.header }, [])

/-- Embeds KVV1Test.Target: dispatch on the bound action. -/
def KVV1Test.Target (k : KVV1Test) (client : Client) (rng : RandSrc) :
    Res (VegetaTarget × List ServerOp) :=
  if k.action = "write" then k.write client rng
  else if k.action = "list" then k.list client
  else k.read client rng

/-- Embeds KVV1Test.GetTargetInfo. -/
def KVV1Test.GetTargetInfo (k : KVV1Test) : TargetInfo :=
  { method :=
      if k.action = "write" then KVV1WriteTestMethod
      else if k.action = "list" then KVV1ListTestMethod
      else KVV1ReadTestMethod
    pathPrefix := k.pathPrefix }

/-- Embeds KVV1Test.Setup: picks the mount path (a fresh UUID when
RandomMounts is set, exiting the process when UUID generation fails, else
the human-provided mount name), mounts a kv engine there, seeds
NumKVs secrets, and returns the bound instance. Server operations are
returned alongside; the nil-config dereference mirrors Go. -/
def KVV1Test.Setup (k : KVV1Test) (client : Client) (mountName : String)
    (topLevelConfig : TopLevelTargetConfig) (uuidGen : Option String) :
    Res (KVV1Test × List ServerOp) := do
  let mountPath ← selectMountPath topLevelConfig mountName uuidGen
  match k.config with
  | none => Res.panicked "invalid memory address or nil pointer dereference"
  | some cfg =>
    let seedOps : List ServerOp :=
      (List.range cfg.numKVs.toNat).map
        (fun i => .writeOp (mountPath ++ "/secret-" ++ toString (i + 1)))
    pure ({ pathPrefix := "/v1/" ++ mountPath
            header := { token := client.token, nsToken := client.nsToken }
            config := none
            action := k.action
            numKVs := cfg.numKVs
            kvSize := cfg.kvSize },
          ServerOp.mountOp mountPath "kv" [] :: seedOps)

/-! ### KVV2Test (src/benchmarktests/target_secret_kvv2.go) -/

def KVV2ReadTestType : String := "kvv2_read"
def KVV2ListTestType : String := "kvv2_list"
def KVV2WriteTestType : String := "kvv2_write"
def KVV2ReadTestMethod : String := "GET"
def KVV2ListTestMethod : String := "LIST"
def KVV2WriteTestMethod : String := "POST"

structure KVV2SecretTestConfig where
  kvSize : Int
  numKVs : Int
  detailed : Bool
deriving DecidableEq, Repr

structure KVV2Test where
  pathPrefix : String
  header : Header
  config : Option KVV2SecretTestConfig
  action : String
  numKVs : Int
  kvSize : Int
  detailed : Bool
deriving DecidableEq, Repr

/-- Embeds the hcl.Body handed to KVV2Test.ParseConfig: optional
kvsize/numkvs/detailed overrides inside an optional config block. -/
inductive KVV2RawBody where
  | malformed
  | decoded (config : Option (Option Int × Option Int × Option Bool))
deriving DecidableEq, Repr

/-- Embeds KVV2Test.ParseConfig: defaults KVSize 1, NumKVs 1000, Detailed
false; a decode failure is the only error. -/
def KVV2Test.ParseConfig (body : KVV2RawBody) : Res KVV2SecretTestConfig :=
  match body with
  | .malformed => .err "error decoding to struct"
  | .decoded cfg =>
    let c := cfg.getD (none, none, none)
    .ok { kvSize := c.1.getD 1, numKVs := c.2.1.getD 1000, detailed := c.2.2.getD false }

/-- Embeds KVV2Test.read. -/
def KVV2Test.read (k : KVV2Test) (client : Client) (rng : RandSrc) :
    Res (VegetaTarget × List ServerOp) := do
  let v ← randInt31n (toInt32 k.numKVs) rng.draw
  pure ({ method := "GET"
          url := client.address ++ k.pathPrefix ++ "/data/secret-" ++ toString (1 + v)
          body := ""
          header := k.header }, [])

/-- Embeds KVV2Test.list: metadata, or detailed-metadata when Detailed. -/
def KVV2Test.list (k : KVV2Test) (client : Client) :
    Res (VegetaTarget × List ServerOp) :=
  let path := if k.detailed then "detailed-metadata" else "metadata"
  .ok ({ method := "LIST"
         url := client.address ++ k.pathPrefix ++ "/" ++ path
         body := ""
         header := k.header }, [])

/-- Embeds KVV2Test.write. -/
def KVV2Test.write (k : KVV2Test) (client : Client) (rng : RandSrc) :
    Res (VegetaTarget × List ServerOp) := do
  let v ← randInt31n (toInt32 k.numKVs) rng.draw
  let value ← stringsRepeat "a" k.kvSize
  pure ({ method := "POST"
          url := client.address ++ k.pathPrefix ++ "/data/secret-" ++ toString (1 + v)
          body := "\x7b\"data\": \x7b\"foo\": \"" ++ value ++ "\"\x7d\x7d"
          header := k.header }, [])

/-- Embeds KVV2Test.Target. -/
def KVV2Test.Target (k : KVV2Test) (client : Client) (rng : RandSrc) :
    Res (VegetaTarget × List ServerOp) :=
  if k.action = "write" then k.write client rng
  else if k.action = "list" then k.list client
  else k.read client rng

/-- Embeds KVV2Test.GetTargetInfo. -/
def KVV2Test.GetTargetInfo (k : KVV2Test) : TargetInfo :=
  { method :=
      if k.action = "write" then KVV2WriteTestMethod
      else if k.action = "list" then KVV2ListTestMethod
      else KVV2ReadTestMethod
    pathPrefix := k.pathPrefix }

/-- Embeds KVV2Test.Setup: mount path selection as in KVV1, a kv-v2 mount,
one read of the mount config (the source retries that read while the
engine reports its non-versioned-to-versioned upgrade; reads succeed at
once in this embedding, where server calls do not fail), then the seeding
writes under /data/. -/
def KVV2Test.Setup (k : KVV2Test) (client : Client) (mountName : String)
    (topLevelConfig : TopLevelTargetConfig) (uuidGen : Option String) :
    Res (KVV2Test × List ServerOp) := do
  let mountPath ← selectMountPath topLevelConfig mountName uuidGen
  match k.config with
  | none => Res.panicked "invalid memory address or nil pointer dereference"
  | some cfg =>
    let seedOps : List ServerOp :=
      (List.range cfg.numKVs.toNat).map
        (fun i => .writeOp (mountPath ++ "/data/secret-" ++ toString (i + 1)))
    pure ({ pathPrefix := "/v1/" ++ mountPath
            header := { token := client.token, nsToken := client.nsToken }
            config := none
            action := k.action
            numKVs := cfg.numKVs
            kvSize := cfg.kvSize
            detailed := cfg.detailed },
          ServerOp.mountOp mountPath "kv" [("version", "2")]
            :: ServerOp.readOp (mountPath ++ "/config") :: seedOps)

/-! ### ACLPolicyTest (second file of src/unnamed/part_003 group) -/

def ACLPolicyReadType : String := "acl_policy_read"
def ACLPolicyListType : String := "acl_policy_list"
def ACLPolicyWriteType : String := "acl_policy_write"
def ACLPolicyReadMethod : String := "GET"
def ACLPolicyListMethod : String := "LIST"
def ACLPolicyWriteMethod : String := "POST"

structure ACLPolicyTestConfig where
  policies : Int
  pathLength : Int
  paths : Int
  capabilities : List String
deriving DecidableEq, Repr

structure ACLPolicyTest where
  pathPrefix : String
  header : Header
  config : Option ACLPolicyTestConfig
  action : String
  policies : Int
  pathLength : Int
  paths : Int
  capabilities : List String
deriving DecidableEq, Repr

/-- Embeds the hcl.Body handed to ACLPolicyTest.ParseConfig. -/
inductive ACLPolicyRawBody where
  | malformed
  | decoded (config : Option (Option Int × Option Int × Option Int × Option (List String)))
deriving DecidableEq, Repr

/-- Embeds ACLPolicyTest.ParseConfig: defaults Policies 10, PathLength 25,
Paths 1 and the full capability list; a decode failure is the only
error. -/
def ACLPolicyTest.ParseConfig (body : ACLPolicyRawBody) : Res ACLPolicyTestConfig :=
  match body with
  | .malformed => .err "error decoding to struct"
  | .decoded cfg =>
    let c := cfg.getD (none, none, none, none)
    .ok { policies := c.1.getD 10
          pathLength := c.2.1.getD 25
          paths := c.2.2.1.getD 1
          capabilities := c.2.2.2.getD ["create", "read", "update", "delete", "list", "sudo"] }

/-- Embeds one iteration of ACLPolicyTest.draftPolicy's loop: build path
`i` (the index rendered then padded with "a" and cut to pathLength; the
repeat panics for a negative pathLength, as strings.Repeat does) and
render its policy stanza. -/
def draftPolicyPath (i : Nat) (pathLength : Int) (capabilities : List String) :
    Res String := do
  let rep ← stringsRepeat "a" pathLength
  let path := (toString i ++ rep).take pathLength.toNat
  pure ("path \"" ++ path ++ "\" \x7b\n  capabilities = [\""
        ++ String.intercalate "\", \"" capabilities ++ "\"]\n\x7d\n")

/-- Embeds ACLPolicyTest.draftPolicy: concatenate the stanza of every path
index below paths. -/
def ACLPolicyTest.draftPolicy (paths pathLength : Int) (capabilities : List String) :
    Res String :=
  (List.range paths.toNat).foldl
    (fun acc i =>
      acc.bind (fun s =>
        (draftPolicyPath i pathLength capabilities).bind (fun p => .ok (s ++ p))))
    (.ok "")

/-- Embeds ACLPolicyTest.read. -/
def ACLPolicyTest.read (a : ACLPolicyTest) (client : Client) (rng : RandSrc) :
    Res (VegetaTarget × List ServerOp) := do
  let v ← randInt31n (toInt32 a.policies) rng.draw
  pure ({ method := ACLPolicyReadMethod
          url := client.address ++ a.pathPrefix ++ "/policy-" ++ toString (1 + v)
          body := ""
          header := a.header }, [])

/-- Embeds ACLPolicyTest.list. -/
def ACLPolicyTest.list (a : ACLPolicyTest) (client : Client) :
    Res (VegetaTarget × List ServerOp) :=
  .ok ({ method := ACLPolicyListMethod
         url := client.address ++ a.pathPrefix
         body := ""
         header := a.header }, [])

/-- Embeds the JSON string escaping json.Marshal applies to the policy
text this test produces (backslash, quote and newline are the characters
that occur in it). -/
def jsonEscape (s : String) : String :=
  String.join (s.data.map (fun c =>
    if c = '\\' then "\\\\"
    else if c = '\"' then "\\\""
    else if c = '\n' then "\\n"
    else String.singleton c))

/-- Embeds ACLPolicyTest.write: a fresh policy document for a random
policy index. -/
def ACLPolicyTest.write (a : ACLPolicyTest) (client : Client) (rng : RandSrc) :
    Res (VegetaTarget × List ServerOp) := do
  let v ← randInt31n (toInt32 a.policies) rng.draw
  let policy ← ACLPolicyTest.draftPolicy a.paths a.pathLength a.capabilities
  pure ({ method := ACLPolicyWriteMethod
          url := client.address ++ a.pathPrefix ++ "/policy-" ++ toString (1 + v)
          body := "\x7b\"policy\":\"" ++ jsonEscape policy ++ "\"\x7d"
          header := a.header }, [])

/-- Embeds ACLPolicyTest.Target. -/
def ACLPolicyTest.Target (a : ACLPolicyTest) (client : Client) (rng : RandSrc) :
    Res (VegetaTarget × List ServerOp) :=
  if a.action = "write" then a.write client rng
  else if a.action = "list" then a.list client
  else a.read client rng

/-- Embeds ACLPolicyTest.GetTargetInfo. -/
def ACLPolicyTest.GetTargetInfo (a : ACLPolicyTest) : TargetInfo :=
  { method :=
      if a.action = "write" then ACLPolicyWriteMethod
      else if a.action = "list" then ACLPolicyListMethod
      else ACLPolicyReadMethod
    pathPrefix := a.pathPrefix }

/-- Embeds ACLPolicyTest.Setup: policy path selection as in KVV1, then one
policy write per index under sys/policies/acl/. -/
def ACLPolicyTest.Setup (a : ACLPolicyTest) (client : Client) (mountName : String)
    (topLevelConfig : TopLevelTargetConfig) (uuidGen : Option String) :
    Res (ACLPolicyTest × List ServerOp) := do
  let policyPath ← selectMountPath topLevelConfig mountName uuidGen
  match a.config with
  | none => Res.panicked "invalid memory address or nil pointer dereference"
  | some cfg =>
    let ops ← (List.range cfg.policies.toNat).foldlM
      (fun (acc : List ServerOp) i => do
        let _ ← ACLPolicyTest.draftPolicy cfg.paths cfg.pathLength cfg.capabilities
        pure (acc ++ [ServerOp.writeOp
          ("sys/policies/acl/" ++ policyPath ++ "/policy-" ++ toString (i + 1))]))
      []
    pure ({ pathPrefix := "/v1/sys/policies/acl/" ++ policyPath
            header := { token := client.token, nsToken := client.nsToken }
            config := none
            action := a.action
            policies := cfg.policies
            pathLength := cfg.pathLength
            paths := cfg.paths
            capabilities := cfg.capabilities }, ops)

/-! ### MountTest (src/benchmarktests/target_sys_mount.go) -/

def MountType : String := "mount"
def MountMethod : String := "POST"

structure MountTestConfig where
  mountType : String
  plugin : String
deriving DecidableEq, Repr

structure MountTest where
  pathPrefix : String
  header : Header
  config : Option MountTestConfig
  mountType : String
  mountPrefix : String
  plugin : String
deriving DecidableEq, Repr

/-- Embeds the hcl.Body handed to MountTest.ParseConfig. -/
inductive MountRawBody where
  | malformed
  | decoded (config : Option (Option String × Option String))
deriving DecidableEq, Repr

/-- Embeds MountTest.ParseConfig: defaults MountType "secret" and Plugin
"kv-v2"; a decode failure is the only error. -/
def MountTest.ParseConfig (body : MountRawBody) : Res MountTestConfig :=
  match body with
  | .malformed => .err "error decoding to struct"
  | .decoded cfg =>
    let c := cfg.getD (none, none)
    .ok { mountType := c.1.getD "secret", plugin := c.2.getD "kv-v2" }

/-- Embeds MountTest.Target: generates a fresh UUID (panicking when
generation fails), names the new mount plugin-UUID and posts its
creation. -/
def MountTest.Target (m : MountTest) (client : Client) (rng : RandSrc) :
    Res (VegetaTarget × List ServerOp) :=
  match rng.uuid with
  | none => .panicked "uuid generation failed"
  | some u =>
    let mountPath := m.plugin ++ "-" ++ u
    .ok ({ method := MountMethod
           url := client.address ++ m.pathPrefix ++ "/" ++ mountPath
           body := "\x7b\"type\":\"" ++ m.plugin ++ "\"\x7d"
           header := m.header }, [])

/-- Embeds MountTest.GetTargetInfo. -/
def MountTest.GetTargetInfo (m : MountTest) : TargetInfo :=
  { method := MountMethod, pathPrefix := m.pathPrefix }

/-- Embeds MountTest.Setup: mount path selection as in KVV1, then the
mount table ("mounts" for secret, "auth" for auth, an error return
otherwise); it performs no server operation. -/
def MountTest.Setup (m : MountTest) (client : Client) (mountName : String)
    (topLevelConfig : TopLevelTargetConfig) (uuidGen : Option String) :
    Res (MountTest × List ServerOp) := do
  let mountPath ← selectMountPath topLevelConfig mountName uuidGen
  match m.config with
  | none => Res.panicked "invalid memory address or nil pointer dereference"
  | some cfg =>
    let table ←
      if cfg.mountType = "secret" then pure "mounts"
      else if cfg.mountType = "auth" then pure "auth"
      else Res.err ("unknown mount type: " ++ cfg.mountType)
    pure ({ pathPrefix := "/v1/sys/" ++ table ++ "/" ++ mountPath
            header := { token := client.token, nsToken := client.nsToken }
            config := none
            mountType := cfg.mountType
            mountPrefix := mountPath
            plugin := cfg.plugin }, [])

/-! ### NamespaceTest (src/benchmarktests/target_sys_namespaces.go) -/

def NamespaceType : String := "namespace"
def NamespaceMethod : String := "POST"

structure NamespaceTestConfig where
  namespacePrefix : String
deriving DecidableEq, Repr

structure NamespaceTest where
  pathPrefix : String
  header : Header
  config : Option NamespaceTestConfig
  namespacePrefix : String
  namespaceData : String
deriving DecidableEq, Repr

/-- Embeds the hcl.Body handed to NamespaceTest.ParseConfig. -/
inductive NamespaceRawBody where
  | malformed
  | decoded (config : Option (Option String))
deriving DecidableEq, Repr

/-- Embeds NamespaceTest.ParseConfig: default NamespacePrefix "benchmark";
a decode failure is the only error. -/
def NamespaceTest.ParseConfig (body : NamespaceRawBody) : Res NamespaceTestConfig :=
  match body with
  | .malformed => .err "error decoding to struct"
  | .decoded cfg =>
    let c := cfg.getD none
    .ok { namespacePrefix := c.getD "benchmark" }

/-- Embeds NamespaceTest.Target: a fresh UUID names the new namespace
(panicking when generation fails). -/
def NamespaceTest.Target (n : NamespaceTest) (client : Client) (rng : RandSrc) :
    Res (VegetaTarget × List ServerOp) :=
  match rng.uuid with
  | none => .panicked "uuid generation failed"
  | some u =>
    let namespacePath := n.namespacePrefix ++ "-" ++ u
    .ok ({ method := NamespaceMethod
           url := client.address ++ n.pathPrefix ++ "/" ++ namespacePath
           body := "\x7b\"source\":\"benchmark-" ++ n.namespaceData ++ "\"\x7d"
           header := n.header }, [])

/-- Embeds NamespaceTest.GetTargetInfo. -/
def NamespaceTest.GetTargetInfo (n : NamespaceTest) : TargetInfo :=
  { method := NamespaceMethod, pathPrefix := n.pathPrefix }

/-- Embeds NamespaceTest.Setup: the name (or a fresh UUID when
RandomMounts is set) becomes the namespace source data, while the bound
path prefix is always "/v1/sys/namespaces"; no server operation is
performed. -/
def NamespaceTest.Setup (n : NamespaceTest) (client : Client) (namespaceName : String)
    (topLevelConfig : TopLevelTargetConfig) (uuidGen : Option String) :
    Res (NamespaceTest × List ServerOp) := do
  let namespaceData ← selectMountPath topLevelConfig namespaceName uuidGen
  match n.config with
  | none => Res.panicked "invalid memory address or nil pointer dereference"
  | some cfg =>
    pure ({ pathPrefix := "/v1/sys/namespaces"
            header := { token := client.token, nsToken := client.nsToken }
            config := none
            namespacePrefix := cfg.namespacePrefix
            namespaceData := namespaceData }, [])

/-! ### RedisDynamicSecret (src/unnamed/part_003) -/

def RedisDynamicSecretTestType : String := "redis_dynamic_secret"
def RedisDynamicSecretTestMethod : String := "GET"

/-- Embeds RedisDBConfig. The struct is declared in a repository file not
provided here; the fields below are the ones the defaults in
RedisDynamicSecret.ParseConfig populate and Setup serializes. -/
structure RedisDBConfig where
  name : String
  pluginName : String
  allowedRoles : List String
  username : String
  password : String
deriving DecidableEq, Repr

structure RedisDynamicRoleConfig where
  name : String
  dbName : String
  defaultTTL : String
  maxTTL : String
  creationStatements : String
deriving DecidableEq, Repr

structure RedisDynamicSecretTestConfig where
  dbConfig : RedisDBConfig
  roleConfig : RedisDynamicRoleConfig
deriving DecidableEq, Repr

structure RedisDynamicSecret where
  pathPrefix : String
  roleName : String
  header : Header
  config : Option RedisDynamicSecretTestConfig
deriving DecidableEq, Repr

/-- Overrides a decoded db_connection block may carry for the fields this
embedding tracks (the struct's remaining fields are outside the provided
files; a failure to decode any of them is folded into
RedisRawBody.malformed). -/
structure RedisRawDB where
  name : Option String
  username : Option String
  password : Option String
deriving DecidableEq, Repr

/-- Overrides a decoded role block may carry. creation_statements has no
"optional" tag in the source, so a role block without it fails to
decode. -/
structure RedisRawRole where
  name : Option String
  dbName : Option String
  defaultTTL : Option String
  maxTTL : Option String
  creationStatements : Option String
deriving DecidableEq, Repr

structure RedisRawConfig where
  dbConnection : Option RedisRawDB
  role : Option RedisRawRole
deriving DecidableEq, Repr

/-- Embeds the hcl.Body handed to RedisDynamicSecret.ParseConfig. -/
inductive RedisRawBody where
  | malformed
  | decoded (config : Option RedisRawConfig)
deriving DecidableEq, Repr

/-- Embeds RedisDynamicSecret.ParseConfig. Defaults are populated first —
the db name, plugin, allowed roles, and the username/password read from
the BENCHMARK environment variables (usernameEnv/passwordEnv hold those
os.Getenv results), plus the role name and db name — then the decoded
body's fields override them (gohcl writes decoded attributes over the
pre-populated struct), a role block missing its required
creation_statements failing the decode; finally an empty username or
password is rejected. -/
def RedisDynamicSecret.ParseConfig (usernameEnv passwordEnv : String)
    (body : RedisRawBody) : Res RedisDynamicSecretTestConfig :=
  match body with
  | .malformed => .err "error decoding to struct"
  | .decoded cfg =>
    let c := cfg.getD { dbConnection := none, role := none }
    if (match c.role with
        | some rb => rb.creationStatements.isNone
        | none => false) then
      .err "error decoding to struct"
    else
      let db : RedisDBConfig :=
        { name := (c.dbConnection.bind RedisRawDB.name).getD "benchmark-redis-db"
          pluginName := "redis-database-plugin"
          allowedRoles := ["my-*-role"]
          username := (c.dbConnection.bind RedisRawDB.username).getD usernameEnv
          password := (c.dbConnection.bind RedisRawDB.password).getD passwordEnv }
      let role : RedisDynamicRoleConfig :=
        { name := (c.role.bind RedisRawRole.name).getD "my-dynamic-role"
          dbName := (c.role.bind RedisRawRole.dbName).getD "benchmark-redis-db"
          defaultTTL := (c.role.bind RedisRawRole.defaultTTL).getD ""
          maxTTL := (c.role.bind RedisRawRole.maxTTL).getD ""
          creationStatements := (c.role.bind RedisRawRole.creationStatements).getD "" }
      if db.username = "" then .err "no redis username provided but required"
      else if db.password = "" then .err "no redis password provided but required"
      else .ok { dbConfig := db, roleConfig := role }

/-- Embeds RedisDynamicSecret.Target: a credentials read for the bound
role under the bound path prefix. -/
def RedisDynamicSecret.Target (r : RedisDynamicSecret) (client : Client)
    (_rng : RandSrc) : Res (VegetaTarget × List ServerOp) :=
  .ok ({ method := RedisDynamicSecretTestMethod
         url := client.address ++ r.pathPrefix ++ "/creds/" ++ r.roleName
         body := ""
         header := r.header }, [])

/-- Embeds RedisDynamicSecret.GetTargetInfo. -/
def RedisDynamicSecret.GetTargetInfo (r : RedisDynamicSecret) : TargetInfo :=
  { method := RedisDynamicSecretTestMethod, pathPrefix := r.pathPrefix }

/-- Embeds RedisDynamicSecret.Setup: secret path selection as in KVV1, a
database engine mount, the db config write under config/ and the role
write under roles/ (filepath.Join rendered as slash concatenation). -/
def RedisDynamicSecret.Setup (r : RedisDynamicSecret) (client : Client)
    (mountName : String) (topLevelConfig : TopLevelTargetConfig)
    (uuidGen : Option String) : Res (RedisDynamicSecret × List ServerOp) := do
  let secretPath ← selectMountPath topLevelConfig mountName uuidGen
  match r.config with
  | none => Res.panicked "invalid memory address or nil pointer dereference"
  | some cfg =>
    pure ({ pathPrefix := "/v1/" ++ secretPath
            roleName := cfg.roleConfig.name
            header := generateHeader client
            config := some cfg },
          [ServerOp.mountOp secretPath "database" [],
           ServerOp.writeOp (secretPath ++ "/config/" ++ cfg.dbConfig.name),
           ServerOp.writeOp (secretPath ++ "/roles/" ++ cfg.roleConfig.name)])

/-! ### The BenchmarkBuilder capability and the TestList registry -/

/-- The dynamic BenchmarkBuilder capability: one constructor per concrete
test implementation registered in the provided files. -/
inductive BenchmarkBuilder where
  | kvv1 (t : KVV1Test)
  | kvv2 (t : KVV2Test)
  | acl (t : ACLPolicyTest)
  | mountTest (t : MountTest)
  | namespaceTest (t : NamespaceTest)
  | redis (t : RedisDynamicSecret)
deriving DecidableEq, Repr

/-- Dynamic dispatch of Target over the capability. -/
def BenchmarkBuilder.Target : BenchmarkBuilder → Client → RandSrc →
    Res (VegetaTarget × List ServerOp)
  | .kvv1 t, c, rng => t.Target c rng
  | .kvv2 t, c, rng => t.Target c rng
  | .acl t, c, rng => t.Target c rng
  | .mountTest t, c, rng => t.Target c rng
  | .namespaceTest t, c, rng => t.Target c rng
  | .redis t, c, rng => t.Target c rng

/-- Dynamic dispatch of GetTargetInfo over the capability. -/
def BenchmarkBuilder.GetTargetInfo : BenchmarkBuilder → TargetInfo
  | .kvv1 t => t.GetTargetInfo
  | .kvv2 t => t.GetTargetInfo
  | .acl t => t.GetTargetInfo
  | .mountTest t => t.GetTargetInfo
  | .namespaceTest t => t.GetTargetInfo
  | .redis t => t.GetTargetInfo

/-- Dynamic dispatch of Setup over the capability. -/
def BenchmarkBuilder.Setup : BenchmarkBuilder → Client → String →
    TopLevelTargetConfig → Option String → Res (BenchmarkBuilder × List ServerOp)
  | .kvv1 t, c, n, tlc, u => (t.Setup c n tlc u).bind (fun p => .ok (.kvv1 p.1, p.2))
  | .kvv2 t, c, n, tlc, u => (t.Setup c n tlc u).bind (fun p => .ok (.kvv2 p.1, p.2))
  | .acl t, c, n, tlc, u => (t.Setup c n tlc u).bind (fun p => .ok (.acl p.1, p.2))
  | .mountTest t, c, n, tlc, u =>
    (t.Setup c n tlc u).bind (fun p => .ok (.mountTest p.1, p.2))
  | .namespaceTest t, c, n, tlc, u =>
    (t.Setup c n tlc u).bind (fun p => .ok (.namespaceTest p.1, p.2))
  | .redis t, c, n, tlc, u => (t.Setup c n tlc u).bind (fun p => .ok (.redis p.1, p.2))

/-- The zero Header value of a freshly allocated Go test struct. -/
def zeroHeader : Header := { token := "", nsToken := "" }

/-- Embeds the process-wide TestList registry as populated by the init
functions of the provided files: each registered name maps to a factory
returning a fresh, unconfigured instance (the Go zero value, with the
action the init function sets). -/
def TestList : String → Option (Unit → BenchmarkBuilder) :=
  fun name =>
    if name = KVV1ReadTestType then
      some (fun _ => .kvv1 { pathPrefix := "", header := zeroHeader, config := none,
                             action := "read", numKVs := 0, kvSize := 0 })
    else if name = KVV1ListTestType then
      some (fun _ => .kvv1 { pathPrefix := "", header := zeroHeader, config := none,
                             action := "list", numKVs := 0, kvSize := 0 })
    else if name = KVV1WriteTestType then
      some (fun _ => .kvv1 { pathPrefix := "", header := zeroHeader, config := none,
                             action := "write", numKVs := 0, kvSize := 0 })
    else if name = KVV2ReadTestType then
      some (fun _ => .kvv2 { pathPrefix := "", header := zeroHeader, config := none,
                             action := "read", numKVs := 0, kvSize := 0, detailed := false })
    else if name = KVV2WriteTestType then
      some (fun _ => .kvv2 { pathPrefix := "", header := zeroHeader, config := none,
                             action := "write", numKVs := 0, kvSize := 0, detailed := false })
    else if name = KVV2ListTestType then
      some (fun _ => .kvv2 { pathPrefix := "", header := zeroHeader, config := none,
                             action := "list", numKVs := 0, kvSize := 0, detailed := false })
    else if name = ACLPolicyReadType then
      some (fun _ => .acl { pathPrefix := "", header := zeroHeader, config := none,
                            action := "read", policies := 0, pathLength := 0,
                            paths := 0, capabilities := [] })
    else if name = ACLPolicyListType then
      some (fun _ => .acl { pathPrefix := "", header := zeroHeader, config := none,
                            action := "list", policies := 0, pathLength := 0,
                            paths := 0, capabilities := [] })
    else if name = ACLPolicyWriteType then
      some (fun _ => .acl { pathPrefix := "", header := zeroHeader, config := none,
                            action := "write", policies := 0, pathLength := 0,
                            paths := 0, capabilities := [] })
    else if name = MountType then
      some (fun _ => .mountTest { pathPrefix := "", header := zeroHeader, config := none,
                                  mountType := "", mountPrefix := "", plugin := "" })
    else if name = NamespaceType then
      some (fun _ => .namespaceTest { pathPrefix := "", header := zeroHeader,
                                      config := none, namespacePrefix := "",
                                      namespaceData := "" })
    else if name = RedisDynamicSecretTestType then
      some (fun _ => .redis { pathPrefix := "", roleName := "", header := zeroHeader,
                              config := none })
    else none

/-- Models Go heap allocation for a factory invocation: the composite
literal the factory takes the address of is placed in a fresh cell, so
each invocation yields a new address holding the factory's value. -/
def allocate (factory : Unit → BenchmarkBuilder) (heap : Nat) :
    (Nat × BenchmarkBuilder) × Nat :=
  ((heap, factory ()), heap + 1)

/-- A concrete client used by witnesses. -/
def sampleClient : Client :=
  { addr := "http://127.0.0.1:8200", token := "root", nsToken := "" }

/-- The Go zero value of each test struct, as the factories allocate it. -/
def kvv1Zero : KVV1Test :=
  { pathPrefix := "", header := zeroHeader, config := none, action := "",
    numKVs := 0, kvSize := 0 }

def kvv2Zero : KVV2Test :=
  { pathPrefix := "", header := zeroHeader, config := none, action := "",
    numKVs := 0, kvSize := 0, detailed := false }

def aclZero : ACLPolicyTest :=
  { pathPrefix := "", header := zeroHeader, config := none, action := "",
    policies := 0, pathLength := 0, paths := 0, capabilities := [] }

def mountZero : MountTest :=
  { pathPrefix := "", header := zeroHeader, config := none, mountType := "",
    mountPrefix := "", plugin := "" }

def namespaceZero : NamespaceTest :=
  { pathPrefix := "", header := zeroHeader, config := none,
    namespacePrefix := "", namespaceData := "" }

def redisZero : RedisDynamicSecret :=
  { pathPrefix := "", roleName := "", header := zeroHeader, config := none }

/-- C7: after initialization the TestList registry maps every supported
test-type name to a factory; each invocation of that factory yields the
unconfigured zero-value instance of the implementation matching the name,
with the matching action; an unknown name is absent; and two invocations
of one factory allocate distinct heap cells, so the instances share no
mutable state. -/
theorem testList_registry_spec :
    ((TestList "kvv1_read").map (fun f => f ())
        = some (.kvv1 { kvv1Zero with action := "read" }))
  ∧ ((TestList "kvv1_list").map (fun f => f ())
        = some (.kvv1 { kvv1Zero with action := "list" }))
  ∧ ((TestList "kvv1_write").map (fun f => f ())
        = some (.kvv1 { kvv1Zero with action := "write" }))
  ∧ ((TestList "kvv2_read").map (fun f => f ())
        = some (.kvv2 { kvv2Zero with action := "read" }))
  ∧ ((TestList "kvv2_write").map (fun f => f ())
        = some (.kvv2 { kvv2Zero with action := "write" }))
  ∧ ((TestList "kvv2_list").map (fun f => f ())
        = some (.kvv2 { kvv2Zero with action := "list" }))
  ∧ ((TestList "acl_policy_read").map (fun f => f ())
        = some (.acl { aclZero with action := "read" }))
  ∧ ((TestList "acl_policy_list").map (fun f => f ())
        = some (.acl { aclZero with action := "list" }))
  ∧ ((TestList "acl_policy_write").map (fun f => f ())
        = some (.acl { aclZero with action := "write" }))
  ∧ ((TestList "mount").map (fun f => f ()) = some (.mountTest mountZero))
  ∧ ((TestList "namespace").map (fun f => f ()) = some (.namespaceTest namespaceZero))
  ∧ ((TestList "redis_dynamic_secret").map (fun f => f ()) = some (.redis redisZero))
  ∧ (TestList "no_such_test" = none)
  ∧ (∀ (factory : Unit → BenchmarkBuilder) (heap : Nat),
      (allocate factory heap).1.1 ≠ (allocate factory (allocate factory heap).2).1.1) := by
  refine ⟨rfl, rfl, rfl, rfl, rfl, rfl, rfl, rfl, rfl, rfl, rfl, rfl, rfl,
    fun factory heap => ?_⟩
  simp only [allocate]
  omega

/-- C10: in every test's Setup, when RandomMounts is set and UUID
generation fails, the embedded computation ends in the log.Fatalf process
exit — and that outcome is distinct from a returned SetupError (Res.err),
so the caller that would clean up previously provisioned instances never
regains control. -/
theorem setup_uuid_failure_fatal (client : Client) (name : String)
    (tlc : TopLevelTargetConfig) (h : tlc.randomMounts = true)
    (k : KVV1Test) (v : KVV2Test) (a : ACLPolicyTest) (m : MountTest)
    (n : NamespaceTest) (r : RedisDynamicSecret) :
    k.Setup client name tlc none = .fatal "can't create UUID"
  ∧ v.Setup client name tlc none = .fatal "can't create UUID"
  ∧ a.Setup client name tlc none = .fatal "can't create UUID"
  ∧ m.Setup client name tlc none = .fatal "can't create UUID"
  ∧ n.Setup client name tlc none = .fatal "can't create UUID"
  ∧ r.Setup client name tlc none = .fatal "can't create UUID"
  ∧ (∀ msg e : String, (Res.fatal msg : Res (KVV1Test × List ServerOp)) ≠ Res.err e) := by
  refine ⟨?_, ?_, ?_, ?_, ?_, ?_, fun msg e hc => Res.noConfusion hc⟩
  all_goals
    simp [KVV1Test.Setup, KVV2Test.Setup, ACLPolicyTest.Setup, MountTest.Setup,
      NamespaceTest.Setup, RedisDynamicSecret.Setup,
      selectMountPath_fatal tlc h, Bind.bind, Res.bind]

/-- Witness for C10: the KVV1 Setup at a concrete client and instance
exits fatally when RandomMounts is set and no UUID is produced. -/
theorem setup_uuid_failure_fatal_witness :
    kvv1Zero.Setup sampleClient "m" { randomMounts := true } none
      = .fatal "can't create UUID" :=
  (setup_uuid_failure_fatal sampleClient "m" { randomMounts := true } rfl
    kvv1Zero kvv2Zero aclZero mountZero namespaceZero redisZero).1

/-- Counterexample to C5 as stated: the namespace test is registered, yet
its Setup binds the resource path "/v1/sys/namespaces" whatever the
human-provided name and whether or not RandomMounts is set — with
RandomMounts false the path is identical for the names "alpha" and
"beta" instead of being built from the name, and with RandomMounts true it
is that same constant instead of being built from the generated UUID (the
name or UUID becomes the namespace source data, not the resource path). -/
theorem namespace_setup_path_constant :
    ({ namespaceZero with config := some { namespacePrefix := "benchmark" } }
        : NamespaceTest).Setup sampleClient "alpha" { randomMounts := false } none
      = .ok ({ pathPrefix := "/v1/sys/namespaces",
               header := { token := "root", nsToken := "" }, config := none,
               namespacePrefix := "benchmark", namespaceData := "alpha" }, [])
  ∧ ({ namespaceZero with config := some { namespacePrefix := "benchmark" } }
        : NamespaceTest).Setup sampleClient "beta" { randomMounts := false } none
      = .ok ({ pathPrefix := "/v1/sys/namespaces",
               header := { token := "root", nsToken := "" }, config := none,
               namespacePrefix := "benchmark", namespaceData := "beta" }, [])
  ∧ ({ namespaceZero with config := some { namespacePrefix := "benchmark" } }
        : NamespaceTest).Setup sampleClient "alpha" { randomMounts := true }
        (some "5ba2f53d-0000-4f11-8000-000000000000")
      = .ok ({ pathPrefix := "/v1/sys/namespaces",
               header := { token := "root", nsToken := "" }, config := none,
               namespacePrefix := "benchmark",
               namespaceData := "5ba2f53d-0000-4f11-8000-000000000000" }, []) :=
  ⟨rfl, rfl, rfl⟩

/-- C5 (amended): for every call to Setup on the KVv1, KVv2, Redis, ACL
policy and mount tests, with RandomMounts false the bound instance's
resource path is built from the human-provided name (kvv1/kvv2/redis:
"/v1/" ++ name; acl: "/v1/sys/policies/acl/" ++ name; mount:
"/v1/sys/" ++ table ++ "/" ++ name), and with RandomMounts true the
freshly generated UUID replaces the name in the same formula; the
namespace test is the exception: its bound path prefix is always
"/v1/sys/namespaces", with the name (or UUID) becoming the namespace
source data instead. -/
theorem setup_resource_paths (client : Client) (name uuid : String) (rm : Bool) :
    (∀ (k : KVV1Test) (inst : KVV1Test) (ops : List ServerOp),
        k.Setup client name { randomMounts := rm } (some uuid) = .ok (inst, ops) →
        inst.pathPrefix = "/v1/" ++ (if rm then uuid else name))
  ∧ (∀ (v : KVV2Test) (inst : KVV2Test) (ops : List ServerOp),
        v.Setup client name { randomMounts := rm } (some uuid) = .ok (inst, ops) →
        inst.pathPrefix = "/v1/" ++ (if rm then uuid else name))
  ∧ (∀ (r : RedisDynamicSecret) (inst : RedisDynamicSecret) (ops : List ServerOp),
        r.Setup client name { randomMounts := rm } (some uuid) = .ok (inst, ops) →
        inst.pathPrefix = "/v1/" ++ (if rm then uuid else name))
  ∧ (∀ (a : ACLPolicyTest) (inst : ACLPolicyTest) (ops : List ServerOp),
        a.Setup client name { randomMounts := rm } (some uuid) = .ok (inst, ops) →
        inst.pathPrefix = "/v1/sys/policies/acl/" ++ (if rm then uuid else name))
  ∧ (∀ (m : MountTest) (inst : MountTest) (ops : List ServerOp),
        m.Setup client name { randomMounts := rm } (some uuid) = .ok (inst, ops) →
        ∃ table, (table = "mounts" ∨ table = "auth") ∧
          inst.pathPrefix = "/v1/sys/" ++ table ++ "/" ++ (if rm then uuid else name))
  ∧ (∀ (n : NamespaceTest) (inst : NamespaceTest) (ops : List ServerOp),
        n.Setup client name { randomMounts := rm } (some uuid) = .ok (inst, ops) →
        inst.pathPrefix = "/v1/sys/namespaces"
          ∧ inst.namespaceData = (if rm then uuid else name)) := by
  refine ⟨?_, ?_, ?_, ?_, ?_, ?_⟩
  · intro k inst ops h
    rcases hc : k.config with - | cfg
    · simp [KVV1Test.Setup, selectMountPath_some, hc, Bind.bind, Res.bind, Res.pure_def] at h
    · simp [KVV1Test.Setup, selectMountPath_some, hc, Bind.bind, Res.bind, Res.pure_def] at h
      rw [← h.1]
  · intro v inst ops h
    rcases hc : v.config with - | cfg
    · simp [KVV2Test.Setup, selectMountPath_some, hc, Bind.bind, Res.bind, Res.pure_def] at h
    · simp [KVV2Test.Setup, selectMountPath_some, hc, Bind.bind, Res.bind, Res.pure_def] at h
      rw [← h.1]
  · intro r inst ops h
    rcases hc : r.config with - | cfg
    · simp [RedisDynamicSecret.Setup, selectMountPath_some, hc, Bind.bind, Res.bind, Res.pure_def] at h
    · simp [RedisDynamicSecret.Setup, selectMountPath_some, hc, Bind.bind, Res.bind, Res.pure_def] at h
      rw [← h.1]
  · intro a inst ops h
    rcases hc : a.config with - | cfg
    · simp [ACLPolicyTest.Setup, selectMountPath_some, hc, Bind.bind, Res.bind, Res.pure_def] at h
    · simp only [ACLPolicyTest.Setup, selectMountPath_some, hc, Bind.bind, Res.bind,
        Res.pure_def] at h
      obtain ⟨ops2, -, h2⟩ := Res.bind_eq_ok h
      simp only [Res.pure_def, Res.ok.injEq, Prod.mk.injEq] at h2
      rw [← h2.1]
  · intro m inst ops h
    rcases hc : m.config with - | cfg
    · simp [MountTest.Setup, selectMountPath_some, hc, Bind.bind, Res.bind, Res.pure_def] at h
    · by_cases hs : cfg.mountType = "secret"
      · refine ⟨"mounts", Or.inl rfl, ?_⟩
        simp [MountTest.Setup, selectMountPath_some, hc, hs, Bind.bind, Res.bind, Res.pure_def] at h
        rw [← h.1]
        rfl
      · by_cases ha : cfg.mountType = "auth"
        · refine ⟨"auth", Or.inr rfl, ?_⟩
          simp [MountTest.Setup, selectMountPath_some, hc, hs, ha, Bind.bind, Res.bind, Res.pure_def] at h
          rw [← h.1]
          rfl
        · simp [MountTest.Setup, selectMountPath_some, hc, hs, ha, Bind.bind, Res.bind, Res.pure_def] at h
  · intro n inst ops h
    rcases hc : n.config with - | cfg
    · simp [NamespaceTest.Setup, selectMountPath_some, hc, Bind.bind, Res.bind, Res.pure_def] at h
    · simp [NamespaceTest.Setup, selectMountPath_some, hc, Bind.bind, Res.bind, Res.pure_def] at h
      rw [← h.1]
      exact ⟨rfl, rfl⟩

/-! Per-test Target facts shared by the consistency and frame claims: a
successful Target call agrees with GetTargetInfo on the method, its URL
extends the client address and path prefix, and it performs no server
operation. -/

theorem kvv1_target_spec (k : KVV1Test) (client : Client) (rng : RandSrc)
    (t : VegetaTarget) (ops : List ServerOp) (h : k.Target client rng = .ok (t, ops)) :
    t.method = k.GetTargetInfo.method
  ∧ (∃ rest, t.url = client.address ++ k.GetTargetInfo.pathPrefix ++ rest)
  ∧ ops = [] := by
  unfold KVV1Test.Target at h
  by_cases hw : k.action = "write"
  · rw [if_pos hw] at h
    simp only [KVV1Test.write, Bind.bind] at h
    obtain ⟨v, -, h2⟩ := Res.bind_eq_ok h
    obtain ⟨value, -, h3⟩ := Res.bind_eq_ok h2
    simp only [Res.pure_def, Res.ok.injEq, Prod.mk.injEq] at h3
    obtain ⟨ht, hops⟩ := h3
    subst ht
    refine ⟨by simp [KVV1Test.GetTargetInfo, hw],
      ⟨"/secret-" ++ toString (1 + v),
        by simp [KVV1Test.GetTargetInfo, String.append_assoc]⟩, hops.symm⟩
  · rw [if_neg hw] at h
    by_cases hl : k.action = "list"
    · rw [if_pos hl] at h
      simp only [KVV1Test.list, Res.ok.injEq, Prod.mk.injEq] at h
      obtain ⟨ht, hops⟩ := h
      subst ht
      refine ⟨by simp [KVV1Test.GetTargetInfo, hw, hl], ⟨"", ?_⟩, hops.symm⟩
      simp [KVV1Test.GetTargetInfo, String.append_empty]
    · rw [if_neg hl] at h
      simp only [KVV1Test.read, Bind.bind] at h
      obtain ⟨v, -, h2⟩ := Res.bind_eq_ok h
      simp only [Res.pure_def, Res.ok.injEq, Prod.mk.injEq] at h2
      obtain ⟨ht, hops⟩ := h2
      subst ht
      refine ⟨by simp [KVV1Test.GetTargetInfo, hw, hl],
        ⟨"/secret-" ++ toString (1 + v),
          by simp [KVV1Test.GetTargetInfo, String.append_assoc]⟩, hops.symm⟩

theorem kvv2_target_spec (k : KVV2Test) (client : Client) (rng : RandSrc)
    (t : VegetaTarget) (ops : List ServerOp) (h : k.Target client rng = .ok (t, ops)) :
    t.method = k.GetTargetInfo.method
  ∧ (∃ rest, t.url = client.address ++ k.GetTargetInfo.pathPrefix ++ rest)
  ∧ ops = [] := by
  unfold KVV2Test.Target at h
  by_cases hw : k.action = "write"
  · rw [if_pos hw] at h
    simp only [KVV2Test.write, Bind.bind] at h
    obtain ⟨v, -, h2⟩ := Res.bind_eq_ok h
    obtain ⟨value, -, h3⟩ := Res.bind_eq_ok h2
    simp only [Res.pure_def, Res.ok.injEq, Prod.mk.injEq] at h3
    obtain ⟨ht, hops⟩ := h3
    subst ht
    refine ⟨by simp [KVV2Test.GetTargetInfo, KVV2WriteTestMethod, hw],
      ⟨"/data/secret-" ++ toString (1 + v),
        by simp [KVV2Test.GetTargetInfo, String.append_assoc]⟩, hops.symm⟩
  · rw [if_neg hw] at h
    by_cases hl : k.action = "list"
    · rw [if_pos hl] at h
      simp only [KVV2Test.list, Res.ok.injEq, Prod.mk.injEq] at h
      obtain ⟨ht, hops⟩ := h
      subst ht
      refine ⟨by simp [KVV2Test.GetTargetInfo, KVV2ListTestMethod, hw, hl],
        ⟨"/" ++ (if k.detailed then "detailed-metadata" else "metadata"),
          by simp [KVV2Test.GetTargetInfo, String.append_assoc]⟩, hops.symm⟩
    · rw [if_neg hl] at h
      simp only [KVV2Test.read, Bind.bind] at h
      obtain ⟨v, -, h2⟩ := Res.bind_eq_ok h
      simp only [Res.pure_def, Res.ok.injEq, Prod.mk.injEq] at h2
      obtain ⟨ht, hops⟩ := h2
      subst ht
      refine ⟨by simp [KVV2Test.GetTargetInfo, KVV2ReadTestMethod, hw, hl],
        ⟨"/data/secret-" ++ toString (1 + v),
          by simp [KVV2Test.GetTargetInfo, String.append_assoc]⟩, hops.symm⟩

theorem acl_target_spec (a : ACLPolicyTest) (client : Client) (rng : RandSrc)
    (t : VegetaTarget) (ops : List ServerOp) (h : a.Target client rng = .ok (t, ops)) :
    t.method = a.GetTargetInfo.method
  ∧ (∃ rest, t.url = client.address ++ a.GetTargetInfo.pathPrefix ++ rest)
  ∧ ops = [] := by
  unfold ACLPolicyTest.Target at h
  by_cases hw : a.action = "write"
  · rw [if_pos hw] at h
    simp only [ACLPolicyTest.write, Bind.bind] at h
    obtain ⟨v, -, h2⟩ := Res.bind_eq_ok h
    obtain ⟨policy, -, h3⟩ := Res.bind_eq_ok h2
    simp only [Res.pure_def, Res.ok.injEq, Prod.mk.injEq] at h3
    obtain ⟨ht, hops⟩ := h3
    subst ht
    refine ⟨by simp [ACLPolicyTest.GetTargetInfo, hw],
      ⟨"/policy-" ++ toString (1 + v),
        by simp [ACLPolicyTest.GetTargetInfo, String.append_assoc]⟩, hops.symm⟩
  · rw [if_neg hw] at h
    by_cases hl : a.action = "list"
    · rw [if_pos hl] at h
      simp only [ACLPolicyTest.list, Res.ok.injEq, Prod.mk.injEq] at h
      obtain ⟨ht, hops⟩ := h
      subst ht
      refine ⟨by simp [ACLPolicyTest.GetTargetInfo, hw, hl], ⟨"", ?_⟩, hops.symm⟩
      simp [ACLPolicyTest.GetTargetInfo, String.append_empty]
    · rw [if_neg hl] at h
      simp only [ACLPolicyTest.read, Bind.bind] at h
      obtain ⟨v, -, h2⟩ := Res.bind_eq_ok h
      simp only [Res.pure_def, Res.ok.injEq, Prod.mk.injEq] at h2
      obtain ⟨ht, hops⟩ := h2
      subst ht
      refine ⟨by simp [ACLPolicyTest.GetTargetInfo, hw, hl],
        ⟨"/policy-" ++ toString (1 + v),
          by simp [ACLPolicyTest.GetTargetInfo, String.append_assoc]⟩, hops.symm⟩

theorem mount_target_spec (m : MountTest) (client : Client) (rng : RandSrc)
    (t : VegetaTarget) (ops : List ServerOp) (h : m.Target client rng = .ok (t, ops)) :
    t.method = m.GetTargetInfo.method
  ∧ (∃ rest, t.url = client.address ++ m.GetTargetInfo.pathPrefix ++ rest)
  ∧ ops = [] := by
  unfold MountTest.Target at h
  rcases hu : rng.uuid with - | u
  · rw [hu] at h
    exact Res.noConfusion h
  · rw [hu] at h
    simp only [Res.ok.injEq, Prod.mk.injEq] at h
    obtain ⟨ht, hops⟩ := h
    subst ht
    refine ⟨rfl, ⟨"/" ++ (m.plugin ++ "-" ++ u),
      by simp [MountTest.GetTargetInfo, String.append_assoc]⟩, hops.symm⟩

theorem namespace_target_spec (n : NamespaceTest) (client : Client) (rng : RandSrc)
    (t : VegetaTarget) (ops : List ServerOp) (h : n.Target client rng = .ok (t, ops)) :
    t.method = n.GetTargetInfo.method
  ∧ (∃ rest, t.url = client.address ++ n.GetTargetInfo.pathPrefix ++ rest)
  ∧ ops = [] := by
  unfold NamespaceTest.Target at h
  rcases hu : rng.uuid with - | u
  · rw [hu] at h
    exact Res.noConfusion h
  · rw [hu] at h
    simp only [Res.ok.injEq, Prod.mk.injEq] at h
    obtain ⟨ht, hops⟩ := h
    subst ht
    refine ⟨rfl, ⟨"/" ++ (n.namespacePrefix ++ "-" ++ u),
      by simp [NamespaceTest.GetTargetInfo, String.append_assoc]⟩, hops.symm⟩

theorem redis_target_spec (r : RedisDynamicSecret) (client : Client) (rng : RandSrc)
    (t : VegetaTarget) (ops : List ServerOp) (h : r.Target client rng = .ok (t, ops)) :
    t.method = r.GetTargetInfo.method
  ∧ (∃ rest, t.url = client.address ++ r.GetTargetInfo.pathPrefix ++ rest)
  ∧ ops = [] := by
  simp only [RedisDynamicSecret.Target, Res.ok.injEq, Prod.mk.injEq] at h
  obtain ⟨ht, hops⟩ := h
  subst ht
  refine ⟨rfl, ⟨"/creds/" ++ r.roleName,
    by simp [RedisDynamicSecret.GetTargetInfo, String.append_assoc]⟩, hops.symm⟩

/-- C6: for every bound instance of every test type and every client, a
request template successfully produced by Target(client) is consistent
with GetTargetInfo: its HTTP method equals GetTargetInfo's method, and its
URL begins with client.Address() followed by GetTargetInfo's pathPrefix. -/
theorem target_consistent_with_info (b : BenchmarkBuilder) (client : Client)
    (rng : RandSrc) (t : VegetaTarget) (ops : List ServerOp)
    (h : b.Target client rng = .ok (t, ops)) :
    t.method = b.GetTargetInfo.method
  ∧ ∃ rest, t.url = client.address ++ b.GetTargetInfo.pathPrefix ++ rest := by
  cases b with
  | kvv1 k => exact ⟨(kvv1_target_spec k client rng t ops h).1,
      (kvv1_target_spec k client rng t ops h).2.1⟩
  | kvv2 k => exact ⟨(kvv2_target_spec k client rng t ops h).1,
      (kvv2_target_spec k client rng t ops h).2.1⟩
  | acl a => exact ⟨(acl_target_spec a client rng t ops h).1,
      (acl_target_spec a client rng t ops h).2.1⟩
  | mountTest m => exact ⟨(mount_target_spec m client rng t ops h).1,
      (mount_target_spec m client rng t ops h).2.1⟩
  | namespaceTest n => exact ⟨(namespace_target_spec n client rng t ops h).1,
      (namespace_target_spec n client rng t ops h).2.1⟩
  | redis r => exact ⟨(redis_target_spec r client rng t ops h).1,
      (redis_target_spec r client rng t ops h).2.1⟩

/-- A bound Redis instance and the template its Target produces, used by
witnesses. -/
def redisBoundSample : RedisDynamicSecret :=
  { pathPrefix := "/v1/x", roleName := "r", header := zeroHeader, config := none }

def redisSampleTarget : VegetaTarget :=
  { method := "GET", url := sampleClient.address ++ "/v1/x" ++ "/creds/" ++ "r",
    body := "", header := zeroHeader }

/-- Witness for C6 at a concrete bound Redis instance. -/
theorem target_consistent_with_info_witness :
    redisSampleTarget.method
        = (BenchmarkBuilder.redis redisBoundSample).GetTargetInfo.method
  ∧ ∃ rest, redisSampleTarget.url
        = sampleClient.address
          ++ (BenchmarkBuilder.redis redisBoundSample).GetTargetInfo.pathPrefix ++ rest :=
  target_consistent_with_info (BenchmarkBuilder.redis redisBoundSample) sampleClient
    { draw := 0, uuid := none } redisSampleTarget [] rfl

/-- C8: Target builds the request template purely from the bound
instance's fields, the client address and locally generated randomness: a
successful call performs no server operation, and applying its (empty)
operation batch leaves any server state unchanged — server interaction
belongs to Setup, not to request construction. -/
theorem target_no_server_ops (b : BenchmarkBuilder) (client : Client)
    (rng : RandSrc) (t : VegetaTarget) (ops : List ServerOp)
    (h : b.Target client rng = .ok (t, ops)) :
    ops = [] ∧ ∀ s : ServerState, applyOps s ops = s := by
  have hops : ops = [] := by
    cases b with
    | kvv1 k => exact (kvv1_target_spec k client rng t ops h).2.2
    | kvv2 k => exact (kvv2_target_spec k client rng t ops h).2.2
    | acl a => exact (acl_target_spec a client rng t ops h).2.2
    | mountTest m => exact (mount_target_spec m client rng t ops h).2.2
    | namespaceTest n => exact (namespace_target_spec n client rng t ops h).2.2
    | redis r => exact (redis_target_spec r client rng t ops h).2.2
  refine ⟨hops, fun s => ?_⟩
  rw [hops]
  exact List.append_nil s

/-- Witness for C8 at the same concrete bound Redis instance. -/
theorem target_no_server_ops_witness :
    ([] : List ServerOp) = [] ∧ ∀ s : ServerState, applyOps s [] = s :=
  target_no_server_ops (BenchmarkBuilder.redis redisBoundSample) sampleClient
    { draw := 0, uuid := none } redisSampleTarget [] rfl

/-- C4: ParseConfig applies declared defaults to omitted fields and fails
exactly on a decode failure or a missing required credential. Redis
dynamic-secret test, decodable body: ParseConfig fails iff the decoded
username or password (the block's override when present, else the
corresponding environment variable) is empty; otherwise it stores the
typed config with defaults (db name "benchmark-redis-db", plugin
"redis-database-plugin", role name "my-dynamic-role") for omitted fields.
KVv1 test: ParseConfig fails exactly on a decode failure, with defaults
KVSize 1 and NumKVs 1000 when the fields or the block are omitted. -/
theorem parseConfig_spec (uEnv pEnv : String) (c : RedisRawConfig)
    (hdec : ∀ rb ∈ c.role, (RedisRawRole.creationStatements rb).isSome) :
    ((∃ m, RedisDynamicSecret.ParseConfig uEnv pEnv (.decoded (some c)) = .err m)
        ↔ ((c.dbConnection.bind RedisRawDB.username).getD uEnv = ""
            ∨ (c.dbConnection.bind RedisRawDB.password).getD pEnv = ""))
  ∧ (∀ cfg, RedisDynamicSecret.ParseConfig uEnv pEnv (.decoded (some c)) = .ok cfg →
        cfg.dbConfig.name = (c.dbConnection.bind RedisRawDB.name).getD "benchmark-redis-db"
      ∧ cfg.dbConfig.pluginName = "redis-database-plugin"
      ∧ cfg.roleConfig.name = (c.role.bind RedisRawRole.name).getD "my-dynamic-role"
      ∧ cfg.roleConfig.dbName = (c.role.bind RedisRawRole.dbName).getD "benchmark-redis-db"
      ∧ cfg.dbConfig.username = (c.dbConnection.bind RedisRawDB.username).getD uEnv
      ∧ cfg.dbConfig.password = (c.dbConnection.bind RedisRawDB.password).getD pEnv)
  ∧ (∃ m, RedisDynamicSecret.ParseConfig uEnv pEnv .malformed = .err m)
  ∧ (∀ body : KVV1RawBody, (∃ m, KVV1Test.ParseConfig body = .err m) ↔ body = .malformed)
  ∧ (KVV1Test.ParseConfig (.decoded none) = .ok { kvSize := 1, numKVs := 1000 })
  ∧ (KVV1Test.ParseConfig (.decoded (some (none, none)))
        = .ok { kvSize := 1, numKVs := 1000 }) := by
  have hcs : (match c.role with
      | some rb => rb.creationStatements.isNone
      | none => false) = false := by
    rcases hr : c.role with - | rb
    · rfl
    · have hs := hdec rb (by rw [hr]; rfl)
      obtain ⟨v, hv⟩ := Option.isSome_iff_exists.mp hs
      show rb.creationStatements.isNone = false
      rw [hv]
      rfl
  refine ⟨?_, ?_, ⟨"error decoding to struct", rfl⟩, ?_, rfl, rfl⟩
  · unfold RedisDynamicSecret.ParseConfig
    simp only [Option.getD_some, hcs, Bool.false_eq_true, if_false]
    by_cases hu : (c.dbConnection.bind RedisRawDB.username).getD uEnv = ""
    · rw [if_pos hu]
      exact ⟨fun _ => Or.inl hu, fun _ => ⟨_, rfl⟩⟩
    · rw [if_neg hu]
      by_cases hp : (c.dbConnection.bind RedisRawDB.password).getD pEnv = ""
      · rw [if_pos hp]
        exact ⟨fun _ => Or.inr hp, fun _ => ⟨_, rfl⟩⟩
      · rw [if_neg hp]
        constructor
        · rintro ⟨m, hm⟩
          exact Res.noConfusion hm
        · rintro (h | h)
          · exact absurd h hu
          · exact absurd h hp
  · intro cfg hok
    unfold RedisDynamicSecret.ParseConfig at hok
    simp only [Option.getD_some, hcs, Bool.false_eq_true, if_false] at hok
    by_cases hu : (c.dbConnection.bind RedisRawDB.username).getD uEnv = ""
    · rw [if_pos hu] at hok
      exact Res.noConfusion hok
    · rw [if_neg hu] at hok
      by_cases hp : (c.dbConnection.bind RedisRawDB.password).getD pEnv = ""
      · rw [if_pos hp] at hok
        exact Res.noConfusion hok
      · rw [if_neg hp] at hok
        simp only [Res.ok.injEq] at hok
        rw [← hok]
        exact ⟨rfl, rfl, rfl, rfl, rfl, rfl⟩
  · intro body
    cases body with
    | malformed => exact ⟨fun _ => rfl, fun _ => ⟨"error decoding to struct", rfl⟩⟩
    | decoded cfg =>
      constructor
      · rintro ⟨m, hm⟩
        exact Res.noConfusion hm
      · intro h
        exact KVV1RawBody.noConfusion h

/-- Witness for C4: with both credential overrides absent and both
environment variables empty, the Redis ParseConfig rejects the (default,
decodable) config block. -/
theorem parseConfig_spec_witness :
    (∃ m, RedisDynamicSecret.ParseConfig "" ""
        (.decoded (some { dbConnection := none, role := none })) = .err m)
      ↔ (((none : Option RedisRawDB).bind RedisRawDB.username).getD "" = ""
          ∨ ((none : Option RedisRawDB).bind RedisRawDB.password).getD "" = "") :=
  (parseConfig_spec "" "" { dbConnection := none, role := none }
    (fun _ h => Option.noConfusion h)).1

/-- C9: a KV config with numkvs zero or negative (and above the int32
wraparound bound) is accepted by ParseConfig — never a ConfigError — and
by Setup, whose seeding loop runs zero times (only the mount call
reaches the server); but every read or write Target call on the bound
instance panics, because rand.Int31n requires a strictly positive
bound. -/
theorem kv_nonpositive_numkvs (nk : Int) (hlo : -(2 ^ 31) < nk) (hhi : nk ≤ 0) :
    (KVV1Test.ParseConfig (.decoded (some (none, some nk)))
        = .ok { kvSize := 1, numKVs := nk })
  ∧ (∀ (k : KVV1Test) (client : Client) (name : String),
      k.config = some { kvSize := 1, numKVs := nk } →
      k.Setup client name { randomMounts := false } none
        = .ok ({ pathPrefix := "/v1/" ++ name,
                 header := { token := client.token, nsToken := client.nsToken },
                 config := none, action := k.action, numKVs := nk, kvSize := 1 },
               [ServerOp.mountOp name "kv" []]))
  ∧ (∀ (k : KVV1Test) (client : Client) (rng : RandSrc),
      k.numKVs = nk → k.action = "read" →
      k.Target client rng = .panicked "invalid argument to Int31n")
  ∧ (∀ (k : KVV1Test) (client : Client) (rng : RandSrc),
      k.numKVs = nk → k.action = "write" →
      k.Target client rng = .panicked "invalid argument to Int31n")
  ∧ (∀ (k : KVV2Test) (client : Client) (rng : RandSrc),
      k.numKVs = nk → k.action = "read" →
      k.Target client rng = .panicked "invalid argument to Int31n")
  ∧ (∀ (k : KVV2Test) (client : Client) (rng : RandSrc),
      k.numKVs = nk → k.action = "write" →
      k.Target client rng = .panicked "invalid argument to Int31n") := by
  have htn : nk.toNat = 0 := by omega
  have hb : toInt32 nk ≤ 0 := by
    unfold toInt32
    have h1 : (2 : Int) ^ 31 = 2147483648 := by norm_num
    have h2 : (2 : Int) ^ 32 = 4294967296 := by norm_num
    rw [h1, h2]
    rw [h1] at hlo
    omega
  refine ⟨rfl, ?_, ?_, ?_, ?_, ?_⟩
  · intro k client name hc
    simp [KVV1Test.Setup, selectMountPath, hc, htn, Bind.bind, Res.bind, Res.pure_def]
  · intro k client rng h1 h2
    have hkb : toInt32 k.numKVs ≤ 0 := by rw [h1]; exact hb
    simp [KVV1Test.Target, h2, KVV1Test.read, randInt31n, hkb, Bind.bind, Res.bind]
  · intro k client rng h1 h2
    have hkb : toInt32 k.numKVs ≤ 0 := by rw [h1]; exact hb
    simp [KVV1Test.Target, h2, KVV1Test.write, randInt31n, hkb, Bind.bind, Res.bind]
  · intro k client rng h1 h2
    have hkb : toInt32 k.numKVs ≤ 0 := by rw [h1]; exact hb
    simp [KVV2Test.Target, h2, KVV2Test.read, randInt31n, hkb, Bind.bind, Res.bind]
  · intro k client rng h1 h2
    have hkb : toInt32 k.numKVs ≤ 0 := by rw [h1]; exact hb
    simp [KVV2Test.Target, h2, KVV2Test.write, randInt31n, hkb, Bind.bind, Res.bind]

/-- Witness for C9 at numkvs = 0: ParseConfig accepts it. -/
theorem kv_nonpositive_numkvs_witness :
    KVV1Test.ParseConfig (.decoded (some (none, some 0)))
      = .ok { kvSize := 1, numKVs := 0 } :=
  (kv_nonpositive_numkvs 0 (by omega) (by omega)).1

end Bench
